import Mathlib

/-!
Verification of the result-tabulation pipeline of `src/python/visualizations.py`
(class `Visualizations`): the class thresholder embedded in
`tabulate_results` (lines 51-56), the tabulation loop itself (lines 43-58),
and the display-encoding constants of `plot_predictions_by_dimension`
(lines 70-79 and 97-99).

Scores are modelled as rationals. The predictor `IrisGP.evaluate_row` and
the threshold constants `IrisGP.THRESHOLD_LOW` / `IrisGP.THRESHOLD_HIGH`
live in `genetic_programming.py`, outside the sources available here; they
are modelled from the spec as an opaque fallible capability and as a pair
of ascending threshold parameters.
-/

set_option autoImplicit false

namespace Visualizations

/-- One row of the test DataFrame `test_df`: the four numeric feature
columns read by `plot_predictions_by_dimension` (lines 95-96) and the
ground-truth `Species` column read by `plot_confusion_matrix`. -/
structure TestRecord where
  sepalLengthCm : ℚ
  sepalWidthCm : ℚ
  petalLengthCm : ℚ
  petalWidthCm : ℚ
  species : String
deriving DecidableEq, Repr

/-- Modelled from the spec: `EvaluationError`, the failure raised when the
predictor capability (`IrisGP.evaluate_row`, not among the available
sources) fails on a record. -/
structure EvaluationError where
  msg : String
deriving DecidableEq, Repr

/-- Modelled from the spec: the predictor capability
`evaluate(record) -> (correct : bool, score : float)`, fallible.
In the source this is `IrisGP.evaluate_row(self.parse_tree, row)`
(line 48), whose definition is not among the available sources. -/
def Predictor : Type :=
  TestRecord → Except EvaluationError (Bool × ℚ)

/-- The class thresholder of `tabulate_results`, lines 51-56:

```
if res < IrisGP.THRESHOLD_LOW:
    species = "Iris-setosa"
elif res < IrisGP.THRESHOLD_HIGH:
    species = "Iris-versicolor"
else:
    species = "Iris-virginica"
```

The two threshold constants come from `genetic_programming.py` (not among
the available sources); following the spec they are two fixed ascending
parameters `tLow < tHigh`. -/
def classify (tLow tHigh res : ℚ) : String :=
  if res < tLow then "Iris-setosa"
  else if res < tHigh then "Iris-versicolor"
  else "Iris-virginica"

/-- One row of the result DataFrame `test_results`: the copied original
columns plus the three derived columns added by `tabulate_results`
(lines 44-46, 49-50, 57). -/
structure ResultRecord where
  orig : TestRecord
  correct : Bool
  predictedValue : ℚ
  predictedSpecies : String
deriving DecidableEq, Repr

/-- The row computed by one iteration of the loop of `tabulate_results`
(lines 47-57) for input row `r`, given the predictor's successful
answer `(c, res)`. -/
def resultRow (tLow tHigh : ℚ) (r : TestRecord) (c : Bool) (res : ℚ) :
    ResultRecord :=
  { orig := r
    correct := c
    predictedValue := res
    predictedSpecies := classify tLow tHigh res }

/-- The loop of `tabulate_results`, lines 47-57: iterate the rows in
order, call the predictor once per row, and fill the three derived
columns. A predictor failure propagates (the Python code installs no
handler, so the exception aborts the whole method). -/
def tabulate_results (pred : Predictor) (tLow tHigh : ℚ) :
    List TestRecord → Except EvaluationError (List ResultRecord)
  | [] => .ok []
  | r :: rs =>
    match pred r with
    | .error e => .error e
    | .ok (c, res) =>
      match tabulate_results pred tLow tHigh rs with
      | .error e => .error e
      | .ok rest => .ok (resultRow tLow tHigh r c res :: rest)

/-- The loop of `tabulate_results` instrumented with the sequence of rows
passed to the predictor, in call order: the loop body (line 48) performs
exactly one predictor call per iteration, and an exception ends the loop
at the failing row. -/
def tabulateTrace (pred : Predictor) (tLow tHigh : ℚ) :
    List TestRecord →
      List TestRecord × Except EvaluationError (List ResultRecord)
  | [] => ([], .ok [])
  | r :: rs =>
    match pred r with
    | .error e => ([r], .error e)
    | .ok (c, res) =>
      match tabulateTrace pred tLow tHigh rs with
      | (tr, .error e) => (r :: tr, .error e)
      | (tr, .ok rest) => (r :: tr, .ok (resultRow tLow tHigh r c res :: rest))

/-- The mutable state of a `Visualizations` instance while
`tabulate_results` runs: the caller's `test_df` and the working copy
`test_results` (line 43 copies, lines 49-57 assign only into the copy). -/
structure VisState where
  test_df : List TestRecord
  test_results : List ResultRecord
deriving DecidableEq, Repr

/-- The loop of `tabulate_results` as a transformer of the instance state:
every assignment in the loop body (lines 49, 50, 57) targets
`test_results`, never `test_df`. -/
def tabulateGo (pred : Predictor) (tLow tHigh : ℚ) (st : VisState) :
    List TestRecord → Except EvaluationError VisState
  | [] => .ok st
  | r :: rs =>
    match pred r with
    | .error e => .error e
    | .ok (c, res) =>
      tabulateGo pred tLow tHigh
        { st with test_results := st.test_results ++ [resultRow tLow tHigh r c res] }
        rs

/-- The whole method body of `tabulate_results` (lines 43-58) on the
instance state: start from a fresh copy of `test_df` (line 43; the three
derived columns of the copy are filled row by row, so the working copy is
modelled as the list of finished rows) and run the loop. -/
def tabulate_results_method (pred : Predictor) (tLow tHigh : ℚ)
    (st : VisState) : Except EvaluationError VisState :=
  tabulateGo pred tLow tHigh { st with test_results := [] } st.test_df

/-- A predictor with internal mutable scratch state of type `σ`, as the
spec allows for a parse-tree evaluator: each call returns the new state
next to the result. -/
def StatefulPredictor (σ : Type) : Type :=
  σ → TestRecord → σ × Except EvaluationError (Bool × ℚ)

/-- A stateful predictor is deterministic when its answer on a record does
not depend on its internal state. -/
def DeterministicPredictor {σ : Type} (pred : StatefulPredictor σ) : Prop :=
  ∀ s₁ s₂ r, (pred s₁ r).2 = (pred s₂ r).2

/-- The loop of `tabulate_results` run against a stateful predictor,
threading the predictor's internal state through the strictly sequential
per-row calls. -/
def tabulateStateful {σ : Type} (pred : StatefulPredictor σ) (tLow tHigh : ℚ)
    (s : σ) :
    List TestRecord → σ × Except EvaluationError (List ResultRecord)
  | [] => (s, .ok [])
  | r :: rs =>
    match pred s r with
    | (s₁, .error e) => (s₁, .error e)
    | (s₁, .ok (c, res)) =>
      match tabulateStateful pred tLow tHigh s₁ rs with
      | (s₂, .error e) => (s₂, .error e)
      | (s₂, .ok rest) => (s₂, .ok (resultRow tLow tHigh r c res :: rest))

/-- The `COLOR_MAP` dictionary of `plot_predictions_by_dimension`,
lines 70-74. -/
def COLOR_MAP : List (String × String) :=
  [("Iris-setosa", "tab:blue"),
   ("Iris-versicolor", "tab:orange"),
   ("Iris-virginica", "tab:green")]

/-- The dictionary access `COLOR_MAP[row["PredictedSpecies"]]` of line 97;
a missing key raises, so the access is modelled as an optional lookup. -/
def colorOf (species : String) : Option String :=
  COLOR_MAP.lookup species

/-- `CORRECT_OPACITY` of line 75. -/
def CORRECT_OPACITY : ℚ := 3 / 10

/-- `CORRECT_SIZE` of line 76. -/
def CORRECT_SIZE : ℕ := 30

/-- `INCORRECT_SIZE` of line 77. -/
def INCORRECT_SIZE : ℕ := 60

/-- The size encoding of line 99:
`s=CORRECT_SIZE if row["Correct"] else INCORRECT_SIZE`. -/
def sizeOfCorrect (correct : Bool) : ℕ :=
  if correct then CORRECT_SIZE else INCORRECT_SIZE

/-- The opacity encoding of line 98:
`alpha=CORRECT_OPACITY if row["Correct"] else 1`. -/
def opacityOfCorrect (correct : Bool) : ℚ :=
  if correct then CORRECT_OPACITY else 1

/-- A sample test row, used to exercise the theorems below on concrete
inputs. -/
def sampleRecord : TestRecord :=
  { sepalLengthCm := 51 / 10
    sepalWidthCm := 35 / 10
    petalLengthCm := 14 / 10
    petalWidthCm := 2 / 10
    species := "Iris-setosa" }

/-- A predictor that always succeeds with a fixed answer. -/
def constPredictor (c : Bool) (v : ℚ) : Predictor :=
  fun _ => .ok (c, v)

/-- Every row of a successfully tabulated table was produced by the loop
body: the predictor answered `(correct, predictedValue)` on its original
row, and `predictedSpecies` is the thresholder applied to
`predictedValue`. -/
theorem mem_tabulate {pred : Predictor} {tLow tHigh : ℚ}
    {rs : List TestRecord} {out : List ResultRecord}
    (h : tabulate_results pred tLow tHigh rs = .ok out)
    {rr : ResultRecord} (hm : rr ∈ out) :
    pred rr.orig = .ok (rr.correct, rr.predictedValue) ∧
    rr.predictedSpecies = classify tLow tHigh rr.predictedValue := by
  induction rs generalizing out with
  | nil =>
    simp only [tabulate_results, Except.ok.injEq] at h
    subst h
    cases hm
  | cons r rs ih =>
    simp only [tabulate_results] at h
    cases hp : pred r with
    | error e => rw [hp] at h; cases h
    | ok cv =>
      obtain ⟨c, res⟩ := cv
      rw [hp] at h
      cases ht : tabulate_results pred tLow tHigh rs with
      | error e => rw [ht] at h; cases h
      | ok rest =>
        rw [ht] at h
        simp only [Except.ok.injEq] at h
        subst h
        rcases List.mem_cons.mp hm with hrr | hrr
        · subst hrr
          exact ⟨hp, rfl⟩
        · exact ih ht hrr

/-- C1: the class thresholder sends a score `s` to Iris-setosa exactly
when `s < tLow`, to Iris-versicolor exactly when `tLow ≤ s < tHigh`, and
to Iris-virginica exactly when `tHigh ≤ s`; each threshold itself resolves
to the upper class. -/
theorem classify_cases (tLow tHigh : ℚ) (h : tLow < tHigh) (s : ℚ) :
    (classify tLow tHigh s = "Iris-setosa" ↔ s < tLow) ∧
    (classify tLow tHigh s = "Iris-versicolor" ↔ tLow ≤ s ∧ s < tHigh) ∧
    (classify tLow tHigh s = "Iris-virginica" ↔ tHigh ≤ s) ∧
    classify tLow tHigh tLow = "Iris-versicolor" ∧
    classify tLow tHigh tHigh = "Iris-virginica" := by
  unfold classify
  refine ⟨?_, ?_, ?_, ?_, ?_⟩ <;> split_ifs <;> simp_all <;> linarith

/-- Concrete instance of `classify_cases` at thresholds 2 and 5 and
score 3. -/
theorem classify_cases_witness :
    (2 : ℚ) < 5 ∧
    ((classify 2 5 3 = "Iris-setosa" ↔ (3 : ℚ) < 2) ∧
     (classify 2 5 3 = "Iris-versicolor" ↔ (2 : ℚ) ≤ 3 ∧ (3 : ℚ) < 5) ∧
     (classify 2 5 3 = "Iris-virginica" ↔ (5 : ℚ) ≤ 3) ∧
     classify 2 5 2 = "Iris-versicolor" ∧
     classify 2 5 5 = "Iris-virginica") :=
  ⟨by norm_num, classify_cases 2 5 (by norm_num) 3⟩

/-- C6: on an empty input the tabulation loop returns an empty table, the
predictor is never invoked, and no error is produced. -/
theorem tabulate_empty (pred : Predictor) (tLow tHigh : ℚ) :
    tabulate_results pred tLow tHigh [] = .ok [] ∧
    (tabulateTrace pred tLow tHigh []).1 = [] :=
  ⟨rfl, rfl⟩

/-- C8: correct predictions render strictly smaller and strictly more
transparent than incorrect ones. -/
theorem display_encoder_ordering :
    sizeOfCorrect true < sizeOfCorrect false ∧
    opacityOfCorrect true < opacityOfCorrect false := by
  constructor
  · decide
  · norm_num [opacityOfCorrect, CORRECT_OPACITY]

/-- C2: a successful tabulation returns exactly one output row per input
row, in input order, and every output row carries its input row's
original fields unchanged. -/
theorem tabulate_order_preserving (pred : Predictor) (tLow tHigh : ℚ)
    (rs : List TestRecord) (out : List ResultRecord)
    (h : tabulate_results pred tLow tHigh rs = .ok out) :
    out.length = rs.length ∧ out.map ResultRecord.orig = rs := by
  have hmap : out.map ResultRecord.orig = rs := by
    induction rs generalizing out with
    | nil =>
      simp only [tabulate_results, Except.ok.injEq] at h
      subst h; rfl
    | cons r rs ih =>
      simp only [tabulate_results] at h
      cases hp : pred r with
      | error e => rw [hp] at h; cases h
      | ok cv =>
        obtain ⟨c, res⟩ := cv
        rw [hp] at h
        cases ht : tabulate_results pred tLow tHigh rs with
        | error e => rw [ht] at h; cases h
        | ok rest =>
          rw [ht] at h
          simp only [Except.ok.injEq] at h
          subst h
          simp only [List.map_cons, ih rest ht]
          rfl
  exact ⟨by rw [← hmap, List.length_map], hmap⟩

/-- Concrete instance of `tabulate_order_preserving` on a one-row input. -/
theorem tabulate_order_preserving_witness :
    tabulate_results (constPredictor true 3) 2 5 [sampleRecord] =
      .ok [resultRow 2 5 sampleRecord true 3] ∧
    ([resultRow 2 5 sampleRecord true 3].length = [sampleRecord].length ∧
     [resultRow 2 5 sampleRecord true 3].map ResultRecord.orig =
       [sampleRecord]) :=
  ⟨rfl, tabulate_order_preserving (constPredictor true 3) 2 5 [sampleRecord]
    [resultRow 2 5 sampleRecord true 3] rfl⟩

/-- The five test rows of the failure scenario, distinguished by their
sepal length. -/
def fiveRecords : List TestRecord :=
  [1, 2, 3, 4, 5].map fun v =>
    { sepalLengthCm := v
      sepalWidthCm := 0
      petalLengthCm := 0
      petalWidthCm := 0
      species := "Iris-setosa" }

/-- A predictor that fails exactly on the row whose sepal length is 3
(the third of `fiveRecords`). -/
def failOnThird : Predictor := fun r =>
  if r.sepalLengthCm = 3 then .error { msg := "predictor failure" }
  else .ok (true, 1)

/-- C3: if the predictor fails on some input row, the whole tabulation
fails with an `EvaluationError` and no result table, partial or full, is
returned. -/
theorem tabulate_error_propagation (pred : Predictor) (tLow tHigh : ℚ)
    (rs : List TestRecord)
    (h : ∃ r ∈ rs, ∃ e, pred r = .error e) :
    ∃ e, tabulate_results pred tLow tHigh rs = .error e ∧
      ∀ out : List ResultRecord,
        tabulate_results pred tLow tHigh rs ≠ .ok out := by
  induction rs with
  | nil => simp at h
  | cons r rs ih =>
    obtain ⟨r₀, hr₀, e₀, he₀⟩ := h
    rcases List.mem_cons.mp hr₀ with h1 | h1
    · subst h1
      have he : tabulate_results pred tLow tHigh (r₀ :: rs) = .error e₀ := by
        simp only [tabulate_results, he₀]
      exact ⟨e₀, he, fun out hout => by rw [he] at hout; cases hout⟩
    · cases hp : pred r with
      | error e =>
        have he : tabulate_results pred tLow tHigh (r :: rs) = .error e := by
          simp only [tabulate_results, hp]
        exact ⟨e, he, fun out hout => by rw [he] at hout; cases hout⟩
      | ok cv =>
        obtain ⟨c, res⟩ := cv
        obtain ⟨e, he, -⟩ := ih ⟨r₀, h1, e₀, he₀⟩
        have he2 : tabulate_results pred tLow tHigh (r :: rs) = .error e := by
          simp only [tabulate_results, hp, he]
        exact ⟨e, he2, fun out hout => by rw [he2] at hout; cases hout⟩

/-- Concrete instance of `tabulate_error_propagation`: the predictor fails
on the third of five rows and tabulation yields no table. -/
theorem tabulate_error_propagation_witness :
    (∃ r ∈ fiveRecords, ∃ e, failOnThird r = .error e) ∧
    ∃ e, tabulate_results failOnThird 2 5 fiveRecords = .error e ∧
      ∀ out : List ResultRecord,
        tabulate_results failOnThird 2 5 fiveRecords ≠ .ok out :=
  have hex : ∃ r ∈ fiveRecords, ∃ e, failOnThird r = .error e :=
    ⟨{ sepalLengthCm := 3, sepalWidthCm := 0, petalLengthCm := 0,
       petalWidthCm := 0, species := "Iris-setosa" },
     by simp [fiveRecords], { msg := "predictor failure" }, rfl⟩
  ⟨hex, tabulate_error_propagation failOnThird 2 5 fiveRecords hex⟩

/-- A second sample row with a different ground-truth label. -/
def sampleRecordB : TestRecord :=
  { sepalLengthCm := 63 / 10
    sepalWidthCm := 33 / 10
    petalLengthCm := 6
    petalWidthCm := 5 / 2
    species := "Iris-virginica" }

/-- C4: in any successfully tabulated tables, two rows with the same
predicted score get the same predicted class, whatever their correct
flags or ground-truth labels and even across different predictors and
inputs; and each row's correct flag is exactly the predictor's reported
boolean. -/
theorem predictedClass_noninterference
    (pred₁ pred₂ : Predictor) (tLow tHigh : ℚ)
    (rs₁ rs₂ : List TestRecord) (out₁ out₂ : List ResultRecord)
    (h₁ : tabulate_results pred₁ tLow tHigh rs₁ = .ok out₁)
    (h₂ : tabulate_results pred₂ tLow tHigh rs₂ = .ok out₂) :
    (∀ r₁ ∈ out₁, ∀ r₂ ∈ out₂,
        r₁.predictedValue = r₂.predictedValue →
          r₁.predictedSpecies = r₂.predictedSpecies) ∧
    ∀ rr ∈ out₁, pred₁ rr.orig = .ok (rr.correct, rr.predictedValue) := by
  constructor
  · intro r₁ hm₁ r₂ hm₂ hv
    rw [(mem_tabulate h₁ hm₁).2, (mem_tabulate h₂ hm₂).2, hv]
  · intro rr hm
    exact (mem_tabulate h₁ hm).1

/-- Concrete instance of `predictedClass_noninterference`: same score,
different correct flags and labels, same predicted class. -/
theorem predictedClass_noninterference_witness :
    tabulate_results (constPredictor true 3) 2 5 [sampleRecord] =
      .ok [resultRow 2 5 sampleRecord true 3] ∧
    tabulate_results (constPredictor false 3) 2 5 [sampleRecordB] =
      .ok [resultRow 2 5 sampleRecordB false 3] ∧
    ((∀ r₁ ∈ [resultRow 2 5 sampleRecord true 3],
        ∀ r₂ ∈ [resultRow 2 5 sampleRecordB false 3],
          r₁.predictedValue = r₂.predictedValue →
            r₁.predictedSpecies = r₂.predictedSpecies) ∧
     ∀ rr ∈ [resultRow 2 5 sampleRecord true 3],
       constPredictor true 3 rr.orig = .ok (rr.correct, rr.predictedValue)) :=
  ⟨rfl, rfl,
   predictedClass_noninterference (constPredictor true 3)
     (constPredictor false 3) 2 5 [sampleRecord] [sampleRecordB] _ _ rfl rfl⟩

/-- C5: when the predictor succeeds on every row, the tabulation loop
passes the rows to the predictor exactly once each, in input order (the
invocation trace equals the input sequence), and builds each output row
by copying the input row and appending the predictor's boolean, the
predictor's score, and the thresholded class of that score. -/
theorem tabulate_invokes_once (pred : Predictor) (tLow tHigh : ℚ)
    (rs : List TestRecord)
    (h : ∀ r ∈ rs, ∃ c v, pred r = .ok (c, v)) :
    (tabulateTrace pred tLow tHigh rs).1 = rs ∧
    ∃ out, (tabulateTrace pred tLow tHigh rs).2 = .ok out ∧
      tabulate_results pred tLow tHigh rs = .ok out ∧
      List.Forall₂
        (fun r rr => pred r = .ok (rr.correct, rr.predictedValue) ∧
          rr = resultRow tLow tHigh r rr.correct rr.predictedValue)
        rs out := by
  induction rs with
  | nil => exact ⟨rfl, [], rfl, rfl, List.Forall₂.nil⟩
  | cons r rs ih =>
    obtain ⟨c, v, hp⟩ := h r (by simp)
    obtain ⟨htr, out, hsnd, htab, hall⟩ :=
      ih fun r₀ hr₀ => h r₀ (by simp [hr₀])
    rcases hE : tabulateTrace pred tLow tHigh rs with ⟨tr, res⟩
    rw [hE] at htr hsnd
    dsimp only at htr hsnd
    subst hsnd
    refine ⟨?_, resultRow tLow tHigh r c v :: out, ?_, ?_, ?_⟩
    · simp [tabulateTrace, hp, hE, htr]
    · simp [tabulateTrace, hp, hE]
    · simp [tabulate_results, hp, htab]
    · exact List.Forall₂.cons ⟨by rw [hp]; rfl, rfl⟩ hall

/-- Concrete instance of `tabulate_invokes_once` on a two-row input. -/
theorem tabulate_invokes_once_witness :
    (∀ r ∈ [sampleRecord, sampleRecordB],
      ∃ c v, constPredictor true 3 r = .ok (c, v)) ∧
    ((tabulateTrace (constPredictor true 3) 2 5
        [sampleRecord, sampleRecordB]).1 = [sampleRecord, sampleRecordB] ∧
     ∃ out, (tabulateTrace (constPredictor true 3) 2 5
         [sampleRecord, sampleRecordB]).2 = .ok out ∧
       tabulate_results (constPredictor true 3) 2 5
         [sampleRecord, sampleRecordB] = .ok out ∧
       List.Forall₂
         (fun r rr => constPredictor true 3 r =
             .ok (rr.correct, rr.predictedValue) ∧
           rr = resultRow 2 5 r rr.correct rr.predictedValue)
         [sampleRecord, sampleRecordB] out) :=
  have h : ∀ r ∈ [sampleRecord, sampleRecordB],
      ∃ c v, constPredictor true 3 r = .ok (c, v) :=
    fun _ _ => ⟨true, 3, rfl⟩
  ⟨h, tabulate_invokes_once (constPredictor true 3) 2 5
    [sampleRecord, sampleRecordB] h⟩

/-- The state-threading loop only ever rewrites `test_results`: on
success the caller's `test_df` is untouched and the finished
`test_results` is the initial working copy followed by exactly the rows
the pure tabulation computes. -/
theorem tabulateGo_spec (pred : Predictor) (tLow tHigh : ℚ)
    (l : List TestRecord) :
    ∀ st st' : VisState,
      tabulateGo pred tLow tHigh st l = .ok st' →
      st'.test_df = st.test_df ∧
      ∃ out, tabulate_results pred tLow tHigh l = .ok out ∧
        st'.test_results = st.test_results ++ out := by
  induction l with
  | nil =>
    intro st st' h
    simp only [tabulateGo, Except.ok.injEq] at h
    subst h
    exact ⟨rfl, [], rfl, by simp⟩
  | cons r rs ih =>
    intro st st' h
    simp only [tabulateGo] at h
    cases hp : pred r with
    | error e => rw [hp] at h; cases h
    | ok cv =>
      obtain ⟨c, res⟩ := cv
      rw [hp] at h
      obtain ⟨hdf, out, htab, hres⟩ := ih _ _ h
      refine ⟨hdf, resultRow tLow tHigh r c res :: out, ?_, ?_⟩
      · simp [tabulate_results, hp, htab]
      · rw [hres]; simp

/-- C7: running the whole `tabulate_results` method leaves the caller's
`test_df` exactly as it was; the only state it constructs is the output
table. -/
theorem tabulate_frame (pred : Predictor) (tLow tHigh : ℚ)
    (st st' : VisState)
    (h : tabulate_results_method pred tLow tHigh st = .ok st') :
    st'.test_df = st.test_df ∧
    ∃ out, tabulate_results pred tLow tHigh st.test_df = .ok out ∧
      st'.test_results = out := by
  obtain ⟨hdf, out, htab, hres⟩ :=
    tabulateGo_spec pred tLow tHigh st.test_df _ _ h
  exact ⟨hdf, out, htab, by simpa using hres⟩

/-- Concrete instance of `tabulate_frame` on a one-row dataset. -/
theorem tabulate_frame_witness :
    tabulate_results_method (constPredictor true 3) 2 5
        { test_df := [sampleRecord], test_results := [] } =
      .ok { test_df := [sampleRecord],
            test_results := [resultRow 2 5 sampleRecord true 3] } ∧
    (({ test_df := [sampleRecord],
        test_results := [resultRow 2 5 sampleRecord true 3] } : VisState).test_df =
      ({ test_df := [sampleRecord], test_results := [] } : VisState).test_df ∧
     ∃ out, tabulate_results (constPredictor true 3) 2 5
         ({ test_df := [sampleRecord], test_results := [] } : VisState).test_df =
           .ok out ∧
       ({ test_df := [sampleRecord],
          test_results := [resultRow 2 5 sampleRecord true 3] } : VisState).test_results =
         out) :=
  ⟨rfl, tabulate_frame (constPredictor true 3) 2 5
    { test_df := [sampleRecord], test_results := [] }
    { test_df := [sampleRecord],
      test_results := [resultRow 2 5 sampleRecord true 3] } rfl⟩

/-- A stateful predictor's table output is insensitive to its starting
internal state whenever its answers are. -/
theorem tabulateStateful_state_irrelevant {σ : Type}
    (pred : StatefulPredictor σ) (tLow tHigh : ℚ)
    (h : DeterministicPredictor pred) (rs : List TestRecord) :
    ∀ s₁ s₂ : σ,
      (tabulateStateful pred tLow tHigh s₁ rs).2 =
        (tabulateStateful pred tLow tHigh s₂ rs).2 := by
  induction rs with
  | nil => intro s₁ s₂; rfl
  | cons r rs ih =>
    intro s₁ s₂
    rcases h1 : pred s₁ r with ⟨a₁, e₁⟩
    rcases h2 : pred s₂ r with ⟨a₂, e₂⟩
    have he : e₁ = e₂ := by
      have := h s₁ s₂ r
      rw [h1, h2] at this
      exact this
    subst he
    cases e₁ with
    | error e => simp [tabulateStateful, h1, h2]
    | ok cv =>
      obtain ⟨c, v⟩ := cv
      have hrec := ih (pred s₁ r).1 (pred s₂ r).1
      rcases hr1 : tabulateStateful pred tLow tHigh (a₁, Except.ok (c, v)).1 rs
        with ⟨t₁, u₁⟩
      rcases hr2 : tabulateStateful pred tLow tHigh (a₂, Except.ok (c, v)).1 rs
        with ⟨t₂, u₂⟩
      have hu : u₁ = u₂ := by
        rw [h1, h2] at hrec
        rw [hr1, hr2] at hrec
        exact hrec
      subst hu
      cases u₁ with
      | error e => simp [tabulateStateful, h1, h2, hr1, hr2]
      | ok rest => simp [tabulateStateful, h1, h2, hr1, hr2]

/-- C9: with a deterministic predictor (possibly holding internal scratch
state), tabulating the same input twice in a row yields two structurally
identical result tables. -/
theorem tabulate_two_run_determinism {σ : Type}
    (pred : StatefulPredictor σ) (tLow tHigh : ℚ)
    (h : DeterministicPredictor pred) (s₀ : σ) (rs : List TestRecord) :
    (tabulateStateful pred tLow tHigh
        (tabulateStateful pred tLow tHigh s₀ rs).1 rs).2 =
      (tabulateStateful pred tLow tHigh s₀ rs).2 :=
  tabulateStateful_state_irrelevant pred tLow tHigh h rs
    (tabulateStateful pred tLow tHigh s₀ rs).1 s₀

/-- A call-counting predictor with fixed answers: deterministic despite
its mutable counter. -/
def countingPredictor : StatefulPredictor ℕ :=
  fun s _ => (s + 1, .ok (true, 3))

/-- Concrete instance of `tabulate_two_run_determinism`: the counting
predictor changes state across runs, yet the second run's table equals
the first run's. -/
theorem tabulate_two_run_determinism_witness :
    DeterministicPredictor countingPredictor ∧
    (tabulateStateful countingPredictor 2 5
        (tabulateStateful countingPredictor 2 5 0
          [sampleRecord, sampleRecordB]).1 [sampleRecord, sampleRecordB]).2 =
      (tabulateStateful countingPredictor 2 5 0
        [sampleRecord, sampleRecordB]).2 :=
  ⟨fun _ _ _ => rfl,
   tabulate_two_run_determinism countingPredictor 2 5 (fun _ _ _ => rfl) 0
     [sampleRecord, sampleRecordB]⟩

/-- C10: the thresholder only ever produces the three keys of
`COLOR_MAP`, so the per-row color lookup of the scatter renderer succeeds
on every row of a tabulated table. -/
theorem colorOf_total_on_table (pred : Predictor) (tLow tHigh : ℚ)
    (rs : List TestRecord) (out : List ResultRecord)
    (h : tabulate_results pred tLow tHigh rs = .ok out) :
    (∀ s : ℚ, classify tLow tHigh s ∈ COLOR_MAP.map Prod.fst) ∧
    ∀ rr ∈ out, ∃ c, colorOf rr.predictedSpecies = some c := by
  refine ⟨?_, ?_⟩
  · intro s
    unfold classify COLOR_MAP
    split_ifs <;> simp
  · intro rr hm
    rw [(mem_tabulate h hm).2]
    unfold colorOf classify COLOR_MAP
    split_ifs
    · exact ⟨"tab:blue", rfl⟩
    · exact ⟨"tab:orange", rfl⟩
    · exact ⟨"tab:green", rfl⟩

/-- Concrete instance of `colorOf_total_on_table` on a one-row table. -/
theorem colorOf_total_on_table_witness :
    tabulate_results (constPredictor true 3) 2 5 [sampleRecord] =
      .ok [resultRow 2 5 sampleRecord true 3] ∧
    ((∀ s : ℚ, classify 2 5 s ∈ COLOR_MAP.map Prod.fst) ∧
     ∀ rr ∈ [resultRow 2 5 sampleRecord true 3],
       ∃ c, colorOf rr.predictedSpecies = some c) :=
  ⟨rfl, colorOf_total_on_table (constPredictor true 3) 2 5 [sampleRecord]
    [resultRow 2 5 sampleRecord true 3] rfl⟩

end Visualizations
